import Mathlib

/-
Verification of the crawl4novel incremental ingestion and reconciliation
engine, shallowly embedded from the Python sources, that is from
novlove_scraper.py, wuxiaworld_scraper.py and database_sqlite.py.
The persistent store is modelled as an explicit record of table rows, the
SQLAlchemy session operations become pure state transformations, and the
external crawler is an oracle parameter.
-/

namespace Crawl4Novel

/-- One row of the genres table, as declared by database_sqlite.Genre. -/
structure GenreRow where
  id : Nat
  name : String
deriving Repr, DecidableEq

/-- One row of the websites table, as declared by database_sqlite.Website. -/
structure WebsiteRow where
  id : Nat
  name : String
  url : String
deriving Repr, DecidableEq

/-- One row of the novels table, as declared by database_sqlite.Novel,
restricted to the columns the scraper reads or writes.  The timestamp
column last_scraped_at is server maintained and is omitted.  The integer
counter columns carry the SQLAlchemy default 0. -/
structure NovelRow where
  id : Nat
  title : String
  author : Option String
  description : Option String
  cover_image_url : Option String
  is_completed : Bool
  avg_rating : Option Rat
  source_url : Option String
  source_website_id : Nat
  latest_chapter_number : Nat
  current_last_chapter_number : Nat
deriving Repr, DecidableEq

/-- One row of the chapters table, as declared by database_sqlite.Chapter.
The published_date column is never written by the scraper and is omitted. -/
structure ChapterRow where
  id : Nat
  novel_id : Nat
  title : String
  chapter_number : Option Nat
  url : Option String
  content : String
deriving Repr, DecidableEq

/-- The persistent store: the tables of database_sqlite.Base.metadata that
the reconciliation code touches, plus a surrogate id supply standing for
the autoincrement primary keys. -/
structure DB where
  websites : List WebsiteRow
  novels : List NovelRow
  genres : List GenreRow
  novel_genres : List (Nat × Nat)
  chapters : List ChapterRow
  nextId : Nat
deriving Repr, DecidableEq

/-- One record of the scraped chapter list, as produced by the Chapters
extraction schema of novlove_scraper.scrape_chapter_list_and_content:
each field may be absent from the extracted dictionary. -/
structure ChapterRecord where
  chapter_url : Option String
  chapter_title : Option String
  chapter_number : Option String
deriving Repr, DecidableEq

/-- Value of a digit list read as a base ten numeral, the behaviour of the
Python expression int applied to a string of digits. -/
def digitsToNat (l : List Char) : Nat :=
  l.foldl (fun a c => 10 * a + (c.toNat - 48)) 0

/-- The digit characters of a string, the Python expression
filter str.isdigit applied to the token. -/
def extractDigits (s : String) : List Char :=
  s.toList.filter Char.isDigit

/-- Chapter number parsing of novlove_scraper.py lines 309 to 312: join the
digit characters of the token and read them with int; any failure, in
particular a token without digits or an absent token, yields None. -/
def parseChapterNumber (t : Option String) : Option Nat :=
  match t with
  | none => none
  | some s =>
      let d := extractDigits s
      if d.isEmpty then none else some (digitsToNat d)

/-- The aggregate query of novlove_scraper.py line 365: maximum of
chapter_number over the stored chapters of one novel, with the scalar None
replaced by 0. -/
def maxChapterInDb (db : DB) (novelId : Nat) : Nat :=
  ((db.chapters.filter (fun c => c.novel_id == novelId)).filterMap
    (fun c => c.chapter_number)).foldl max 0

/-- The attribute writes of novlove_scraper.py lines 364 and 366 on the
loaded novel row. -/
def setNovelCounters (db : DB) (novelId latest current : Nat) : DB :=
  { db with novels := db.novels.map (fun n =>
      if n.id == novelId then
        { n with latest_chapter_number := latest,
                 current_last_chapter_number := current }
      else n) }

/-- State of the record loop of novlove_scraper.py lines 305 to 379: the
committed store, the running latest_chapter_num_on_site and
new_chapters_count, whether the loaded novel instance has been expired and
detached by an in-loop commit plus close, and whether a
DetachedInstanceError has escaped the loop and aborted reconciliation. -/
structure LoopState where
  db : DB
  latest : Nat
  cnt : Nat
  detached : Bool
  raised : Bool
deriving Repr, DecidableEq

/-- The body of the record loop of novlove_scraper.py lines 305 to 379, one
iteration.  The fetch oracle stands for the crawler call that returns the
parsed chapter content.  The session semantics are modelled faithfully:
the session has autoflush off, so the aggregate query of line 365 runs
before the pending insert is flushed and does not see the just added
chapter; the commit and close of lines 368 to 369, nested inside the new
chapter branch, expire and detach the loaded novel instance (the print at
line 371 then raises on it, but inside the try and is caught at line 375);
from then on the next new chapter iteration raises DetachedInstanceError
at the novel id access of line 352, outside any try, which aborts the
whole loop with the store as committed so far. -/
def processRecord (fetch : Option String → String) (novelId : Nat)
    (st : LoopState) (rec : ChapterRecord) : LoopState :=
  if st.raised then st
  else
    match parseChapterNumber rec.chapter_number with
    | none => st
    | some n =>
        let latest1 := if n > st.latest then n else st.latest
        if st.db.chapters.any (fun c => c.url == rec.chapter_url) then
          { st with latest := latest1 }
        else if st.detached then
          { st with latest := latest1, raised := true }
        else
          let content := fetch rec.chapter_url
          let ch : ChapterRow :=
            { id := st.db.nextId, novel_id := novelId,
              title := rec.chapter_title.getD "No Title",
              chapter_number := some n, url := rec.chapter_url,
              content := content }
          let maxInDb := maxChapterInDb st.db novelId
          let db1 : DB := { st.db with chapters := st.db.chapters ++ [ch],
                                       nextId := st.db.nextId + 1 }
          let db2 := setNovelCounters db1 novelId latest1 maxInDb
          { db := db2, latest := latest1, cnt := st.cnt + 1,
            detached := true, raised := false }

/-- Chapter reconciliation, novlove_scraper.scrape_chapter_list_and_content
after the chapter list has been extracted: resolve the novel by source_url,
return unchanged when it is absent, otherwise run the record loop.  The
result is the committed store together with a flag recording whether a
DetachedInstanceError escaped the loop and aborted the run. -/
def scrape_chapter_list_and_content (fetch : Option String → String)
    (db : DB) (novel_url : String) (records : List ChapterRecord) :
    DB × Bool :=
  match db.novels.find? (fun n => n.source_url == some novel_url) with
  | none => (db, false)
  | some novel =>
      let fin := records.foldl (processRecord fetch novel.id)
        { db := db, latest := 0, cnt := 0, detached := false, raised := false }
      (fin.db, fin.raised)

/-- Lower case image of a string as a character list, the Python str.lower
normalisation applied by the genre lookups; the scraped genre names are
ASCII, where Char.toLower agrees with the Python method. -/
def pyLower (s : String) : List Char :=
  s.toList.map Char.toLower

/-- One genre reconciliation step, novlove_scraper.py lines 172 to 179:
look the scraped name up case insensitively, create the row when absent,
then append the association unless it is already present. -/
def genreStep (novelId : Nat) (db : DB) (genre_name : String) : DB :=
  match db.genres.find? (fun g => pyLower g.name == pyLower genre_name) with
  | some g =>
      if db.novel_genres.any (fun p => p.1 == novelId && p.2 == g.id) then db
      else { db with novel_genres := db.novel_genres ++ [(novelId, g.id)] }
  | none =>
      let g : GenreRow := { id := db.nextId, name := genre_name }
      let db1 : DB := { db with genres := db.genres ++ [g],
                                nextId := db.nextId + 1 }
      if db1.novel_genres.any (fun p => p.1 == novelId && p.2 == g.id) then db1
      else { db1 with novel_genres := db1.novel_genres ++ [(novelId, g.id)] }

/-- Genre handling of novlove_scraper.scrape_novel_details_and_chapters,
lines 170 to 179: when the scraped name list is non empty, run genreStep
over it; an empty list leaves the store untouched. -/
def handleGenres (db : DB) (novelId : Nat) (genre_names : List String) : DB :=
  if genre_names.isEmpty then db
  else genre_names.foldl (genreStep novelId) db

/-- novlove_scraper.save_genres_to_db, lines 40 to 50: create a genre row
for every scraped name whose case insensitive lookup fails; no
associations are touched. -/
def save_genres_to_db (db : DB) (genres : List String) : DB :=
  genres.foldl (fun db genre_name =>
    match db.genres.find? (fun g => pyLower g.name == pyLower genre_name) with
    | some _ => db
    | none => { db with genres := db.genres ++ [{ id := db.nextId, name := genre_name }],
                        nextId := db.nextId + 1 }) db

/-- Model of the Python float builtin on the decimal literals the scraper
meets: optional surrounding blanks, an optional sign, digits with at most
one decimal point, and an optional exponent part.  A string that does not
fit this grammar, such as one without any digit, yields none, matching the
ValueError the builtin raises. -/
def pyFloat (s : String) : Option Rat :=
  let l0 := (s.toList.dropWhile Char.isWhitespace).reverse.dropWhile Char.isWhitespace
  let l := l0.reverse
  let sgnBody : Int × List Char :=
    match l with
    | '+' :: r => (1, r)
    | '-' :: r => (-1, r)
    | r => (1, r)
  let sgn := sgnBody.1
  let body := sgnBody.2
  let mant := body.takeWhile (fun c => !(c == 'e' || c == 'E'))
  let expPart := body.dropWhile (fun c => !(c == 'e' || c == 'E'))
  let intPart := mant.takeWhile (fun c => !(c == '.'))
  let dotRest := mant.dropWhile (fun c => !(c == '.'))
  let fracPart := dotRest.drop 1
  let expVal : Option Int :=
    match expPart with
    | [] => some 0
    | _ :: er =>
        let esgnBody : Int × List Char :=
          match er with
          | '+' :: r => (1, r)
          | '-' :: r => (-1, r)
          | r => (1, r)
        if esgnBody.2.isEmpty || !(esgnBody.2.all Char.isDigit) then none
        else some (esgnBody.1 * (digitsToNat esgnBody.2 : Int))
  if intPart.all Char.isDigit && fracPart.all Char.isDigit
      && !(fracPart.contains '.')
      && !(intPart.isEmpty && fracPart.isEmpty) then
    match expVal with
    | none => none
    | some e =>
        let num : Int := sgn * (digitsToNat (intPart ++ fracPart) : Int)
        let den : Nat := 10 ^ fracPart.length
        some (if 0 ≤ e then mkRat (num * (10 : Int) ^ e.toNat) den
              else mkRat num (den * 10 ^ (-e).toNat))
  else none

/-- The avg_rating expression on novel creation, novlove_scraper.py line
148: float applied to the extracted rating field or 0.  Only an absent
field or the empty string is falsy and replaced by 0 before the
conversion; a non empty string that float rejects raises, modelled as the
error outcome. -/
def ratingOnCreate (r : Option String) : Except Unit Rat :=
  match r with
  | none => .ok 0
  | some s =>
      if s = "" then .ok 0
      else
        match pyFloat s with
        | some q => .ok q
        | none => .error ()

/-- The avg_rating expression on novel update, novlove_scraper.py line 161:
float applied to the extracted rating field or the previous column value.
A falsy field falls back to the previous value; when that value is NULL
the conversion of None raises, modelled as the error outcome. -/
def ratingOnUpdate (r : Option String) (prev : Option Rat) : Except Unit Rat :=
  match r with
  | none =>
      match prev with
      | some p => .ok p
      | none => .error ()
  | some s =>
      if s = "" then
        match prev with
        | some p => .ok p
        | none => .error ()
      else
        match pyFloat s with
        | some q => .ok q
        | none => .error ()

/-- Outcome of fetching and XML parsing a sitemap: either the list of loc
texts of its url elements, a requests.RequestException, or an
xml.etree.ElementTree.ParseError. -/
inductive FetchOutcome where
  | success (locs : List (Option String))
  | fetchError (msg : String)
  | parseError (msg : String)
deriving Repr, DecidableEq

/-- Substring test, the Python in operator on strings. -/
def strContains (hay sub : String) : Bool :=
  decide (List.IsInfix sub.toList hay.toList)

/-- Model of urllib.parse.urlparse(url).path for the absolute URLs of the
sitemap: the part after the host, or the whole string when no scheme
separator occurs. -/
def urlPath (url : String) : String :=
  match url.splitOn "://" with
  | [_, rest] =>
      match rest.splitOn "/" with
      | [] => ""
      | _ :: ps => "/" ++ String.intercalate "/" ps
  | _ => url

/-- The per url genre extraction of novlove_scraper.get_genres_from_sitemap
lines 24 to 31: keep URLs containing the genre path marker, split the path,
drop empty parts and take the last one when more than one part remains. -/
def genreFromUrl (url : String) : Option String :=
  if strContains url "https://novlove.com/nov-love-genres/" then
    let parts := ((urlPath url).splitOn "/").filter (fun p => p ≠ "")
    if parts.length > 1 then parts.getLast? else none
  else none

/-- novlove_scraper.get_genres_from_sitemap, lines 13 to 38: on a
successful fetch and parse, the deduplicated genre names of the matching
URLs; a RequestException or a ParseError is caught and yields the empty
list.  The Python set is modelled as first occurrence deduplication. -/
def get_genres_from_sitemap (r : FetchOutcome) : List String :=
  match r with
  | .success locs => ((locs.filterMap id).filterMap genreFromUrl).eraseDups
  | .fetchError _ => []
  | .parseError _ => []

/-- Find or create of the NovLove website row, novlove_scraper.py lines
202 to 208, returning the store and the website id. -/
def ensureWebsiteNovLove (db : DB) : DB × Nat :=
  match db.websites.find? (fun w => w.name == "NovLove") with
  | some w => (db, w.id)
  | none =>
      let w : WebsiteRow := { id := db.nextId, name := "NovLove", url := "https://novlove.com" }
      ({ db with websites := db.websites ++ [w], nextId := db.nextId + 1 }, db.nextId)

/-- The stub novel row inserted by URL discovery, novlove_scraper.py line
228, with the SQLAlchemy column defaults. -/
def novelStub (url : String) (wid : Nat) (id : Nat) : NovelRow :=
  { id := id, title := "Unknown", author := none, description := none,
    cover_image_url := none, is_completed := false, avg_rating := none,
    source_url := some url, source_website_id := wid,
    latest_chapter_number := 0, current_last_chapter_number := 0 }

/-- novlove_scraper.scrape_novel_urls_command, lines 198 to 238: ensure the
website row (committed before the fetch), then on success insert a stub
novel for every discovered URL not already stored; a caught fetch or parse
failure leaves the store as committed so far, with no novel changed. -/
def scrape_novel_urls_command (r : FetchOutcome) (db : DB) : DB :=
  let res := ensureWebsiteNovLove db
  let db1 := res.1
  let wid := res.2
  match r with
  | .fetchError _ => db1
  | .parseError _ => db1
  | .success locs =>
      let novel_urls :=
        ((locs.filterMap id).filter
          (fun u => strContains u "https://novlove.com/novel/")).eraseDups
      if novel_urls.isEmpty then db1
      else novel_urls.foldl (fun db u =>
        if db.novels.any (fun n => n.source_url == some u) then db
        else { db with novels := db.novels ++ [novelStub u wid db.nextId],
                       nextId := db.nextId + 1 }) db1

/-- One iteration of the batch loop of novlove_scraper.main, lines 419 to
425: attempt the scrape of one novel inside try, and on an exception log
it and move on.  The abstract scrape returns the store it leaves behind
together with a normal or exceptional outcome; both branches extend the
per novel report. -/
def batchStep (scrape : Option String → DB → DB × Except String Unit)
    (acc : DB × List (Option String × Bool)) (novel : NovelRow) :
    DB × List (Option String × Bool) :=
  let r := scrape novel.source_url acc.1
  match r.2 with
  | .ok _ => (r.1, acc.2 ++ [(novel.source_url, true)])
  | .error _ => (r.1, acc.2 ++ [(novel.source_url, false)])

/-- The all novels branch of novlove_scraper.main, lines 412 to 427: query
the novel list once, then fold the guarded per novel step over it. -/
def scrapeAllCommand (scrape : Option String → DB → DB × Except String Unit)
    (db : DB) : DB × List (Option String × Bool) :=
  db.novels.foldl (batchStep scrape) (db, [])

/-- One row of the novel table of wuxiaworld_scraper.init_db: id integer
primary key autoincrement, url text unique not null, source text not
null. -/
structure WNovelRow where
  id : Nat
  url : String
  source : String
deriving Repr, DecidableEq

/-- The SQLite store of wuxiaworld_scraper.py: the novel table and the
autoincrement supply. -/
structure WuxiaDB where
  rows : List WNovelRow
  nextId : Nat
deriving Repr, DecidableEq

/-- wuxiaworld_scraper.insert_novel_url, lines 24 to 31: INSERT OR IGNORE
on the unique url column inserts the row only when no stored row carries
that url, and otherwise changes nothing. -/
def insert_novel_url (st : WuxiaDB) (url source : String) : WuxiaDB :=
  if st.rows.any (fun r => r.url == url) then st
  else { rows := st.rows ++ [{ id := st.nextId, url := url, source := source }],
         nextId := st.nextId + 1 }

/-- A resolved novel row used by the concrete evaluations: stub fields,
counters at their default 0. -/
def novelX : NovelRow :=
  { id := 1, title := "X", author := none, description := none,
    cover_image_url := none, is_completed := false, avg_rating := none,
    source_url := some "https://novlove.com/novel/x", source_website_id := 0,
    latest_chapter_number := 0, current_last_chapter_number := 0 }

/-- A stored chapter row of novelX with number 6 and url u6. -/
def chapterU6 : ChapterRow :=
  { id := 2, novel_id := 1, title := "Chapter 6", chapter_number := some 6,
    url := some "u6", content := "" }

/-- Store holding novelX and its stored chapter 6. -/
def dbWithChapter6 : DB :=
  { websites := [], novels := [novelX], genres := [], novel_genres := [],
    chapters := [chapterU6], nextId := 3 }

/-- The scraped record for the already stored chapter 6. -/
def recChapter6 : ChapterRecord :=
  { chapter_url := some "u6", chapter_title := some "Chapter 6",
    chapter_number := some "Chapter 6" }

/-- Store holding novelX and no chapters. -/
def dbNoChapters : DB :=
  { websites := [], novels := [novelX], genres := [], novel_genres := [],
    chapters := [], nextId := 3 }

/-- A scraped record that has a URL but whose number token has no digit. -/
def recPrologue : ChapterRecord :=
  { chapter_url := some "u-prologue", chapter_title := some "Prologue",
    chapter_number := some "Prologue" }

/-- The genre row named Fantasy with id 2. -/
def genreFantasy : GenreRow := { id := 2, name := "Fantasy" }

/-- Store where novelX is already associated with the Fantasy genre. -/
def dbWithFantasy : DB :=
  { websites := [], novels := [novelX], genres := [genreFantasy],
    novel_genres := [(1, 2)], chapters := [], nextId := 3 }

/-- Store holding only novelX, with no genre rows or associations. -/
def dbNoGenres : DB :=
  { websites := [], novels := [novelX], genres := [], novel_genres := [],
    chapters := [], nextId := 3 }

/-- The empty store. -/
def dbEmpty : DB :=
  { websites := [], novels := [], genres := [], novel_genres := [],
    chapters := [], nextId := 0 }

/-- A scraped record for a first new chapter, url uA. -/
def recChapterOne : ChapterRecord :=
  { chapter_url := some "uA", chapter_title := some "Chapter 1",
    chapter_number := some "Chapter 1" }

/-- A scraped record for a second new chapter, url uB. -/
def recChapterTwo : ChapterRecord :=
  { chapter_url := some "uB", chapter_title := some "Chapter 2",
    chapter_number := some "Chapter 2" }

/-- Some association of the given novel points at a stored genre row whose
lower case name is the given one. -/
def hasGenreAssoc (db : DB) (novelId : Nat) (low : List Char) : Prop :=
  ∃ p ∈ db.novel_genres, p.1 = novelId ∧
    ∃ g ∈ db.genres, g.id = p.2 ∧ pyLower g.name = low

/-- C3, evaluated at the failing input: novelX has no stored chapters and
the scraped list carries two new chapters.  The first pass inserts and
commits only chapter one — the in loop commit plus close of lines 368 to
369 detaches the loaded novel, so the second new chapter raises
DetachedInstanceError at line 352 and aborts the pass.  The second pass of
the very same list then skips chapter one, inserts chapter two — the
chapter row count grows from 1 to 2 — and moves
current_last_chapter_number from 0 to 1, refuting the claim that a second
pass inserts no row and leaves the counter unchanged.  The claim is the
intent: the specification names idempotence a testable property and calls
the nesting of the commit block inside the loop an implementation slip. -/
theorem chapter_reconcile_second_pass_changes_store :
    ((scrape_chapter_list_and_content (fun _ => "") dbNoChapters
      "https://novlove.com/novel/x" [recChapterOne, recChapterTwo]).1).chapters.length = 1 ∧
    (scrape_chapter_list_and_content (fun _ => "") dbNoChapters
      "https://novlove.com/novel/x" [recChapterOne, recChapterTwo]).2 = true ∧
    ((scrape_chapter_list_and_content (fun _ => "")
        (scrape_chapter_list_and_content (fun _ => "") dbNoChapters
          "https://novlove.com/novel/x" [recChapterOne, recChapterTwo]).1
        "https://novlove.com/novel/x" [recChapterOne, recChapterTwo]).1).chapters.length = 2 ∧
    ((scrape_chapter_list_and_content (fun _ => "") dbNoChapters
      "https://novlove.com/novel/x" [recChapterOne, recChapterTwo]).1).novels.map
        (fun n => n.current_last_chapter_number) = [0] ∧
    ((scrape_chapter_list_and_content (fun _ => "")
        (scrape_chapter_list_and_content (fun _ => "") dbNoChapters
          "https://novlove.com/novel/x" [recChapterOne, recChapterTwo]).1
        "https://novlove.com/novel/x" [recChapterOne, recChapterTwo]).1).novels.map
        (fun n => n.current_last_chapter_number) = [1] := by
  decide

/-- C9.  Chapter reconciliation never runs against an unresolved novel:
when no stored novel row carries the requested source_url, the function
returns with the store untouched and no exception, inserting no chapter
and mutating no entity. -/
theorem reconcile_requires_resolved_novel (fetch : Option String → String)
    (db : DB) (u : String) (recs : List ChapterRecord)
    (h : ∀ n ∈ db.novels, n.source_url ≠ some u) :
    scrape_chapter_list_and_content fetch db u recs = (db, false) := by
  have hfind : db.novels.find? (fun n => n.source_url == some u) = none := by
    apply List.find?_eq_none.mpr
    intro n hn
    simp [h n hn]
  simp [scrape_chapter_list_and_content, hfind]

/-- Witness for C9 at a concrete input: the empty store holds no novel at
all, so reconciliation of any list against it is the identity. -/
theorem reconcile_requires_resolved_novel_witness :
    scrape_chapter_list_and_content (fun _ => "") dbEmpty "u" [recPrologue] =
      (dbEmpty, false) :=
  reconcile_requires_resolved_novel (fun _ => "") dbEmpty "u" [recPrologue] (by decide)

/-- C1, evaluated at the failing input: novelX has chapter 6 stored and its
counters at 0, and the scraped list reports exactly the stored chapter 6.
The specification demands that after reconciliation the counters be set
once, after processing all records, to 6 and 6; the code leaves the store
completely unchanged, because the counter update of lines 362 to 379 sits
inside the new chapter branch of the loop and no new chapter is inserted
here. -/
theorem chapter_counter_update_skipped_when_no_new_chapter :
    scrape_chapter_list_and_content (fun _ => "") dbWithChapter6
        "https://novlove.com/novel/x" [recChapter6] = (dbWithChapter6, false) ∧
    parseChapterNumber recChapter6.chapter_number = some 6 ∧
    maxChapterInDb dbWithChapter6 1 = 6 ∧
    novelX.latest_chapter_number = 0 ∧
    novelX.current_last_chapter_number = 0 :=
  ⟨by decide, by decide, by decide, rfl, rfl⟩

/-- Counterexample to C4 as stated: this record has a URL, its number token
has no digit, and the claim says it is still stored as a chapter row; the
code drops it entirely, leaving the chapters table empty. -/
theorem unparsable_number_record_not_stored :
    recPrologue.chapter_url = some "u-prologue" ∧
    parseChapterNumber recPrologue.chapter_number = none ∧
    scrape_chapter_list_and_content (fun _ => "") dbNoChapters
        "https://novlove.com/novel/x" [recPrologue] = (dbNoChapters, false) ∧
    dbNoChapters.chapters = [] :=
  ⟨rfl, by decide, by decide, rfl⟩

/-- C4 as amended: a scraped record whose chapter number token yields no
digits is skipped entirely by the record loop, whether or not it has a
URL: it contributes neither to the numbering nor to storage, and the loop
state is returned unchanged. -/
theorem unparsable_number_record_skipped_entirely
    (fetch : Option String → String) (novelId : Nat) (st : LoopState)
    (r : ChapterRecord) (h : parseChapterNumber r.chapter_number = none) :
    processRecord fetch novelId st r = st := by
  simp [processRecord, h]

/-- Witness for the amended C4 at a concrete record with a URL and the
token Prologue. -/
theorem unparsable_number_record_skipped_entirely_witness :
    parseChapterNumber recPrologue.chapter_number = none ∧
    processRecord (fun _ => "") 1 ⟨dbNoChapters, 0, 0, false, false⟩ recPrologue =
      ⟨dbNoChapters, 0, 0, false, false⟩ :=
  ⟨by decide, unparsable_number_record_skipped_entirely (fun _ => "") 1
    ⟨dbNoChapters, 0, 0, false, false⟩ recPrologue (by decide)⟩

/-- One genre step only ever appends to the genres table. -/
theorem genreStep_genres_extend (novelId : Nat) (db : DB) (name : String) :
    ∃ t, (genreStep novelId db name).genres = db.genres ++ t := by
  cases h : db.genres.find? (fun g => pyLower g.name == pyLower name) with
  | some g =>
      exact ⟨[], by simp only [genreStep, h]; split <;> simp⟩
  | none =>
      exact ⟨[⟨db.nextId, name⟩], by simp only [genreStep, h]; split <;> simp⟩

/-- One genre step only ever appends to the association table. -/
theorem genreStep_assoc_extend (novelId : Nat) (db : DB) (name : String) :
    ∃ t, (genreStep novelId db name).novel_genres = db.novel_genres ++ t := by
  cases h : db.genres.find? (fun g => pyLower g.name == pyLower name) with
  | some g =>
      cases hc : db.novel_genres.any (fun p => p.1 == novelId && p.2 == g.id) with
      | true => exact ⟨[], by simp [genreStep, h, hc]⟩
      | false => exact ⟨[(novelId, g.id)], by simp [genreStep, h, hc]⟩
  | none =>
      cases hc : db.novel_genres.any
          (fun p => p.1 == novelId && p.2 == db.nextId) with
      | true => exact ⟨[], by simp [genreStep, h, hc]⟩
      | false => exact ⟨[(novelId, db.nextId)], by simp [genreStep, h, hc]⟩

/-- The genre loop only ever appends to the genres table. -/
theorem foldl_genreStep_genres_extend (novelId : Nat) (names : List String)
    (db : DB) :
    ∃ t, (names.foldl (genreStep novelId) db).genres = db.genres ++ t := by
  induction names generalizing db with
  | nil => exact ⟨[], by simp⟩
  | cons a rest ih =>
      obtain ⟨t1, h1⟩ := genreStep_genres_extend novelId db a
      obtain ⟨t2, h2⟩ := ih (genreStep novelId db a)
      exact ⟨t1 ++ t2, by simp [h2, h1]⟩

/-- The genre loop only ever appends to the association table. -/
theorem foldl_genreStep_assoc_extend (novelId : Nat) (names : List String)
    (db : DB) :
    ∃ t, (names.foldl (genreStep novelId) db).novel_genres =
      db.novel_genres ++ t := by
  induction names generalizing db with
  | nil => exact ⟨[], by simp⟩
  | cons a rest ih =>
      obtain ⟨t1, h1⟩ := genreStep_assoc_extend novelId db a
      obtain ⟨t2, h2⟩ := ih (genreStep novelId db a)
      exact ⟨t1 ++ t2, by simp [h2, h1]⟩

/-- An established association survives appending genre rows and
association pairs. -/
theorem hasGenreAssoc_extend {db db' : DB} {novelId : Nat} {low : List Char}
    (h : hasGenreAssoc db novelId low)
    (hg : ∃ t, db'.genres = db.genres ++ t)
    (ha : ∃ t, db'.novel_genres = db.novel_genres ++ t) :
    hasGenreAssoc db' novelId low := by
  obtain ⟨p, hp, hp1, g, hgmem, hgid, hglow⟩ := h
  obtain ⟨t1, ht1⟩ := hg
  obtain ⟨t2, ht2⟩ := ha
  refine ⟨p, ?_, hp1, g, ?_, hgid, hglow⟩
  · rw [ht2]; exact List.mem_append_left _ hp
  · rw [ht1]; exact List.mem_append_left _ hgmem

/-- After its own step, a scraped genre name is associated with the novel:
either the association was already present, or it was just appended,
against a found or a freshly created genre row. -/
theorem genreStep_establishes (novelId : Nat) (db : DB) (name : String) :
    hasGenreAssoc (genreStep novelId db name) novelId (pyLower name) := by
  cases h : db.genres.find? (fun g => pyLower g.name == pyLower name) with
  | some g =>
      have hmem := List.mem_of_find?_eq_some h
      have hlow : pyLower g.name = pyLower name := by
        simpa using List.find?_some h
      cases hc : db.novel_genres.any (fun p => p.1 == novelId && p.2 == g.id) with
      | true =>
          have hres : genreStep novelId db name = db := by
            simp [genreStep, h, hc]
          rw [hres]
          obtain ⟨p, hp, hcond⟩ := List.any_eq_true.mp hc
          have hpc : p.1 = novelId ∧ p.2 = g.id := by simpa using hcond
          exact ⟨p, hp, hpc.1, g, hmem, hpc.2.symm, hlow⟩
      | false =>
          have hres : genreStep novelId db name =
              { db with novel_genres := db.novel_genres ++ [(novelId, g.id)] } := by
            simp [genreStep, h, hc]
          rw [hres]
          exact ⟨(novelId, g.id), List.mem_append_right _ (by simp), rfl, g,
            hmem, rfl, hlow⟩
  | none =>
      cases hc : db.novel_genres.any
          (fun p => p.1 == novelId && p.2 == db.nextId) with
      | true =>
          have hres : genreStep novelId db name =
              { db with genres := db.genres ++ [⟨db.nextId, name⟩],
                        nextId := db.nextId + 1 } := by
            simp [genreStep, h, hc]
          rw [hres]
          obtain ⟨p, hp, hcond⟩ := List.any_eq_true.mp hc
          have hpc : p.1 = novelId ∧ p.2 = db.nextId := by simpa using hcond
          exact ⟨p, hp, hpc.1, ⟨db.nextId, name⟩,
            List.mem_append_right _ (by simp), hpc.2.symm, rfl⟩
      | false =>
          have hres : genreStep novelId db name =
              { db with genres := db.genres ++ [⟨db.nextId, name⟩],
                        novel_genres := db.novel_genres ++ [(novelId, db.nextId)],
                        nextId := db.nextId + 1 } := by
            simp [genreStep, h, hc]
          rw [hres]
          exact ⟨(novelId, db.nextId), List.mem_append_right _ (by simp), rfl,
            ⟨db.nextId, name⟩, List.mem_append_right _ (by simp), rfl, rfl⟩

/-- After the genre loop has run, every scraped name of the list is
associated with the novel. -/
theorem foldl_genreStep_establishes (novelId : Nat) (names : List String)
    (db : DB) :
    ∀ name ∈ names,
      hasGenreAssoc (names.foldl (genreStep novelId) db) novelId (pyLower name) := by
  induction names generalizing db with
  | nil => intro name h; cases h
  | cons a rest ih =>
      intro name h
      rw [List.foldl_cons]
      rcases List.mem_cons.mp h with rfl | h
      · exact hasGenreAssoc_extend (genreStep_establishes novelId db name)
          (foldl_genreStep_genres_extend novelId rest (genreStep novelId db name))
          (foldl_genreStep_assoc_extend novelId rest (genreStep novelId db name))
      · exact ih (genreStep novelId db a) name h

/-- C2 as amended: genre reconciliation is additive.  Every supplied name
ends up associated with the novel, matched case insensitively against a
found or freshly created genre row; the existing association list is kept
as a prefix, untouched — in particular genres absent from the new list are
never removed. -/
theorem genre_reconcile_additive (db : DB) (novelId : Nat)
    (names : List String) :
    (∃ t, (handleGenres db novelId names).novel_genres = db.novel_genres ++ t) ∧
    ∀ name ∈ names,
      hasGenreAssoc (handleGenres db novelId names) novelId (pyLower name) := by
  unfold handleGenres
  split
  · next he =>
      refine ⟨⟨[], by simp⟩, ?_⟩
      intro name h
      rw [List.isEmpty_iff.mp he] at h
      cases h
  · exact ⟨foldl_genreStep_assoc_extend novelId names db,
      foldl_genreStep_establishes novelId names db⟩

/-- Counterexample to C2 as stated: the novel is associated with Fantasy,
the newly supplied list is the single name Romance, and the claim says the
association set afterwards exactly equals the supplied list; the code
keeps the Fantasy association, leaving two pairs. -/
theorem genre_reconcile_not_removing :
    (handleGenres dbWithFantasy 1 ["Romance"]).novel_genres = [(1, 2), (1, 3)] ∧
    genreFantasy.id = 2 ∧
    pyLower genreFantasy.name ∉ ["Romance"].map pyLower :=
  ⟨by decide, rfl, by decide⟩

/-- Witness for the amended C2 at a concrete store and list. -/
theorem genre_reconcile_additive_witness :
    (∃ t, (handleGenres dbWithFantasy 1 ["Romance"]).novel_genres =
      dbWithFantasy.novel_genres ++ t) ∧
    hasGenreAssoc (handleGenres dbWithFantasy 1 ["Romance"]) 1 (pyLower "Romance") :=
  ⟨(genre_reconcile_additive dbWithFantasy 1 ["Romance"]).1,
    (genre_reconcile_additive dbWithFantasy 1 ["Romance"]).2 "Romance" (by decide)⟩

/-- A search failing on the left part of an appended list continues on the
right part. -/
theorem find?_append_of_none {α : Type} (p : α → Bool) {l1 : List α}
    (l2 : List α) (h : l1.find? p = none) :
    (l1 ++ l2).find? p = l2.find? p := by
  induction l1 with
  | nil => simp
  | cons a t ih =>
      cases hp : p a with
      | true =>
          rw [List.find?_cons_of_pos _ hp] at h
          exact absurd h (by simp)
      | false =>
          have hp' : ¬ p a = true := by simp [hp]
          rw [List.find?_cons_of_neg _ hp'] at h
          rw [List.cons_append, List.find?_cons_of_neg _ hp']
          exact ih h

/-- C6.  Genre identity is case insensitive: starting from a store holding
no genre row with the given lower case name and no association of the
novel to the upcoming row id, reconciling the name s and then any other
casing t of the same name yields exactly one matching genre row and
exactly one association pair, and the second reconciliation changes
nothing at all. -/
theorem genre_identity_case_insensitive (db : DB) (novelId : Nat)
    (s t : String)
    (hfind : db.genres.find? (fun g => pyLower g.name == pyLower s) = none)
    (hpair : db.novel_genres.any
      (fun p => p.1 == novelId && p.2 == db.nextId) = false)
    (hlow : pyLower t = pyLower s) :
    handleGenres (handleGenres db novelId [s]) novelId [t] =
      handleGenres db novelId [s] ∧
    (handleGenres (handleGenres db novelId [s]) novelId [t]).genres.countP
      (fun g => pyLower g.name == pyLower s) = 1 ∧
    (handleGenres (handleGenres db novelId [s]) novelId [t]).novel_genres.count
      (novelId, db.nextId) = 1 := by
  have hstep1 : handleGenres db novelId [s] =
      { db with genres := db.genres ++ [⟨db.nextId, s⟩],
                novel_genres := db.novel_genres ++ [(novelId, db.nextId)],
                nextId := db.nextId + 1 } := by
    simp [handleGenres, genreStep, hfind, hpair]
  set db1 : DB :=
    { db with genres := db.genres ++ [⟨db.nextId, s⟩],
              novel_genres := db.novel_genres ++ [(novelId, db.nextId)],
              nextId := db.nextId + 1 } with hdb1
  have hfind2 : db1.genres.find? (fun g => pyLower g.name == pyLower t) =
      some ⟨db.nextId, s⟩ := by
    simp only [hlow, hdb1]
    rw [find?_append_of_none _ _ hfind]
    simp [List.find?]
  have hany2 : db1.novel_genres.any
      (fun p => p.1 == novelId && p.2 == db.nextId) = true := by
    rw [show db1.novel_genres = db.novel_genres ++ [(novelId, db.nextId)] from rfl]
    simp
  have hstep2 : handleGenres db1 novelId [t] = db1 := by
    simp [handleGenres, genreStep, hfind2, hany2]
  have hcount0 : db.genres.countP (fun g => pyLower g.name == pyLower s) = 0 :=
    List.countP_eq_zero.mpr (List.find?_eq_none.mp hfind)
  have hmem0 : (novelId, db.nextId) ∉ db.novel_genres := by
    intro hmem
    have : db.novel_genres.any
        (fun p => p.1 == novelId && p.2 == db.nextId) = true :=
      List.any_eq_true.mpr ⟨(novelId, db.nextId), hmem, by simp⟩
    rw [hpair] at this
    cases this
  refine ⟨by rw [hstep1, hstep2], ?_, ?_⟩
  · rw [hstep1, hstep2]
    rw [show db1.genres = db.genres ++ [⟨db.nextId, s⟩] from rfl]
    simp [List.countP_append, hcount0, List.countP_cons]
  · rw [hstep1, hstep2]
    rw [show db1.novel_genres = db.novel_genres ++ [(novelId, db.nextId)] from rfl]
    simp [List.count_append, List.count_eq_zero.mpr hmem0]

/-- Witness for C6 at a concrete store: scraping Fantasy and then fantasy
for novelX starting from no genre rows. -/
theorem genre_identity_case_insensitive_witness :
    handleGenres (handleGenres dbNoGenres 1 ["Fantasy"]) 1 ["fantasy"] =
      handleGenres dbNoGenres 1 ["Fantasy"] ∧
    (handleGenres (handleGenres dbNoGenres 1 ["Fantasy"]) 1
      ["fantasy"]).genres.countP
      (fun g => pyLower g.name == pyLower "Fantasy") = 1 ∧
    (handleGenres (handleGenres dbNoGenres 1 ["Fantasy"]) 1
      ["fantasy"]).novel_genres.count (1, dbNoGenres.nextId) = 1 :=
  genre_identity_case_insensitive dbNoGenres 1 "Fantasy" "fantasy"
    (by decide) (by decide) (by decide)

/-- The batch fold reports one entry per novel, in order, whatever the
scrape outcomes are. -/
theorem foldl_batchStep_report (scrape : Option String → DB → DB × Except String Unit)
    (l : List NovelRow) (db : DB) (acc : List (Option String × Bool)) :
    ((l.foldl (batchStep scrape) (db, acc)).2).map Prod.fst =
      acc.map Prod.fst ++ l.map (fun n => n.source_url) := by
  induction l generalizing db acc with
  | nil => simp
  | cons a rest ih =>
      rw [List.foldl_cons]
      cases hr : (scrape a.source_url db).2 with
      | ok v =>
          have hstep : batchStep scrape (db, acc) a =
              ((scrape a.source_url db).1, acc ++ [(a.source_url, true)]) := by
            simp [batchStep, hr]
          rw [hstep, ih]
          simp
      | error e =>
          have hstep : batchStep scrape (db, acc) a =
              ((scrape a.source_url db).1, acc ++ [(a.source_url, false)]) := by
            simp [batchStep, hr]
          rw [hstep, ih]
          simp

/-- C5.  The batch runner isolates failures per novel: for every store and
every abstract scrape behaviour, including one that raises on some novels,
the run reports exactly one entry per selected novel, in selection order —
an exceptional outcome at novel i is recorded and the runner still reaches
novel i plus one, so the batch always completes. -/
theorem batch_runner_processes_every_novel
    (scrape : Option String → DB → DB × Except String Unit) (db : DB) :
    ((scrapeAllCommand scrape db).2).map Prod.fst =
      db.novels.map (fun n => n.source_url) := by
  have h := foldl_batchStep_report scrape db.novels db []
  simpa [scrapeAllCommand] using h

/-- Counterexample to C7 as stated: the scraped rating N slash A is non
empty and unparseable, and the claim says it is replaced by 0 or by the
previous value; the code raises a ValueError instead, on creation and on
update alike. -/
theorem unparseable_rating_raises :
    pyFloat "N/A" = none ∧
    ratingOnCreate (some "N/A") = Except.error () ∧
    ratingOnUpdate (some "N/A") (some 3) = Except.error () :=
  ⟨rfl, rfl, rfl⟩

/-- C7 as amended: only a falsy rating field — an absent one or the empty
string — is replaced by the default 0 on creation or by the previous value
on update; a non empty rating string the float conversion rejects raises,
and the error propagates. -/
theorem rating_defaults_only_for_falsy (r : Option String) (p : Rat)
    (s : String) (hr : r = none ∨ r = some "") (hs : pyFloat s = none)
    (hs2 : s ≠ "") :
    ratingOnCreate r = .ok 0 ∧ ratingOnUpdate r (some p) = .ok p ∧
    ratingOnCreate (some s) = .error () ∧
    ratingOnUpdate (some s) (some p) = .error () := by
  rcases hr with rfl | rfl <;>
    refine ⟨?_, ?_, ?_, ?_⟩ <;>
      simp [ratingOnCreate, ratingOnUpdate, hs, hs2]

/-- Witness for the amended C7: the empty rating string defaults, the
string N slash A raises. -/
theorem rating_defaults_only_for_falsy_witness :
    ratingOnCreate (some "") = .ok 0 ∧
    ratingOnUpdate (some "") (some 3) = .ok 3 ∧
    ratingOnCreate (some "N/A") = .error () ∧
    ratingOnUpdate (some "N/A") (some 3) = .error () :=
  rating_defaults_only_for_falsy (some "") 3 "N/A" (Or.inr rfl) (by decide)
    (by decide)

/-- C8.  A fetch failure or an XML parse failure during URL discovery
yields an empty genre result and, in the novel URL discovery command,
leaves the stored novels exactly as they were: nothing previously
discovered is deleted or invalidated.  Both failures are caught inside the
component, so in the embedding they are ordinary return paths, never
escaping exceptions. -/
theorem discovery_failure_yields_empty_and_preserves_novels
    (msg : String) (db : DB) :
    get_genres_from_sitemap (.fetchError msg) = [] ∧
    get_genres_from_sitemap (.parseError msg) = [] ∧
    (scrape_novel_urls_command (.fetchError msg) db).novels = db.novels ∧
    (scrape_novel_urls_command (.parseError msg) db).novels = db.novels := by
  refine ⟨rfl, rfl, ?_, ?_⟩ <;>
  · cases h : db.websites.find? (fun w => w.name == "NovLove") with
    | some w => simp [scrape_novel_urls_command, ensureWebsiteNovLove, h]
    | none => simp [scrape_novel_urls_command, ensureWebsiteNovLove, h]

/-- C10.  insert_novel_url is idempotent on the unique url key: on a store
satisfying the uniqueness invariant, inserting the same url twice, even
with a different source the second time, leaves the second call a no op
and exactly one row for that url — the first stored row. -/
theorem insert_novel_url_idempotent (st : WuxiaDB) (u s1 s2 : String)
    (h : st.rows.countP (fun r => r.url == u) ≤ 1) :
    insert_novel_url (insert_novel_url st u s1) u s2 =
      insert_novel_url st u s1 ∧
    (insert_novel_url (insert_novel_url st u s1) u s2).rows.countP
      (fun r => r.url == u) = 1 := by
  cases ha : st.rows.any (fun r => r.url == u) with
  | true =>
      have h1 : insert_novel_url st u s1 = st := by simp [insert_novel_url, ha]
      have h2 : insert_novel_url st u s2 = st := by simp [insert_novel_url, ha]
      have hpos : 0 < st.rows.countP (fun r => r.url == u) := by
        obtain ⟨x, hx, hpx⟩ := List.any_eq_true.mp ha
        exact List.countP_pos_iff.mpr ⟨x, hx, hpx⟩
      refine ⟨by rw [h1, h2], ?_⟩
      rw [h1, h2]
      omega
  | false =>
      have hcnt0 : st.rows.countP (fun r => r.url == u) = 0 := by
        apply List.countP_eq_zero.mpr
        intro x hx
        exact (List.any_eq_false.mp ha) x hx
      have h1 : insert_novel_url st u s1 =
          ⟨st.rows ++ [⟨st.nextId, u, s1⟩], st.nextId + 1⟩ := by
        simp [insert_novel_url, ha]
      have ha2 : (st.rows ++ [⟨st.nextId, u, s1⟩] : List WNovelRow).any
          (fun r => r.url == u) = true := by simp
      constructor
      · rw [h1]
        simp [insert_novel_url, ha2]
      · rw [h1]
        simp [insert_novel_url, ha2, List.countP_append, hcnt0]

/-- Witness for C10 at the empty store, with two different sources for the
same url. -/
theorem insert_novel_url_idempotent_witness :
    insert_novel_url (insert_novel_url ⟨[], 0⟩ "a" "x") "a" "y" =
      insert_novel_url ⟨[], 0⟩ "a" "x" ∧
    (insert_novel_url (insert_novel_url ⟨[], 0⟩ "a" "x") "a" "y").rows.countP
      (fun r => r.url == "a") = 1 :=
  insert_novel_url_idempotent ⟨[], 0⟩ "a" "x" "y" (by decide)

end Crawl4Novel
